import Mathlib

/-!
Verification of the wake-driven orchestration and persistent cooldown state
machine of the ESP32 Autonomous Sentinel firmware.

The embedding below is a shallow model of the C++ sources:
- `SleepManager` (sleep_manager.cpp): the persisted cooldown cell
  `s_nextPirAllowTime` (RTC memory, survives deep sleep), the queries
  `isInCooldown` / `getCooldownRemaining`, the update `startCooldown`, and the
  wake-source arbitration performed by `enterDeepSleep`.
- `CameraDriver` / `SdCardDriver` (camera_driver.cpp, sdcard_driver.cpp):
  acquisition state (`m_initialized`, `m_card`), `warmup`, `capture`,
  `shutdown`. Hardware outcomes (mount success, frame buffers, detection
  results, network results) are inputs supplied by an environment record,
  since they come from external collaborators.
- `handlePirTrigger` (app_main.cpp): the PIR-trigger pipeline, modelled as a
  function producing the trace of resource/notification/power events the run
  performs together with the final value of the persisted cooldown cell.

Machine integers are modelled as unbounded `Int`: every reachable value of the
cooldown cell is `0` or `now + 3600` with `now ≥ 0` taken from a seconds
counter, far inside the `int64_t` range, so wraparound never matters.
The C++ `float` confidence is modelled as a rational number; the claims about
the decision branch depend only on the outcome of the comparison, not on
floating-point rounding.
-/

namespace Sentinel

/-! Configuration constants, from config/app_config.hpp and
config/board_config.hpp. -/

/-- Cooldown period after detection in seconds (config::timing::COOLDOWN_SECONDS). -/
def COOLDOWN_SECONDS : Int := 3600

/-- Camera warmup frame count (config::timing::CAMERA_WARMUP_FRAMES). -/
def CAMERA_WARMUP_FRAMES : Nat := 25

/-- Minimum valid warmup frames required (config::timing::CAMERA_MIN_VALID_FRAMES). -/
def CAMERA_MIN_VALID_FRAMES : Nat := 20

/-- Minimum valid frame size in bytes (config::camera::MIN_FRAME_SIZE). -/
def MIN_FRAME_SIZE : Nat := 1024

/-- Minimum confidence score for a positive detection
(config::detection::MIN_CONFIDENCE = 0.5f, modelled as a rational). -/
def MIN_CONFIDENCE : ℚ := 1/2

/-- PIR signal input pin (config::pir::PIN = GPIO_NUM_3). -/
def PIR_PIN : Nat := 3

/-- Wake source armed before entering deep sleep. `enterDeepSleep` arms either
a timer wake (esp_sleep_enable_timer_wakeup, duration in seconds here) or a
level wake on the PIR pin (esp_sleep_enable_ext1_wakeup). -/
inductive WakeSource where
  | timerWake (durationSec : Int)
  | levelWake (pin : Nat)
deriving DecidableEq, Repr

/-! SleepManager (sleep_manager.cpp). The persisted state is the single RTC
memory cell `s_nextPirAllowTime : int64_t`; `now` is the value returned by
`getCurrentTimeSec()` at the moment of the call. -/

/-- SleepManager::isInCooldown: `s_nextPirAllowTime > getCurrentTimeSec()`. -/
def isInCooldown (nextPirAllowTime now : Int) : Bool :=
  decide (nextPirAllowTime > now)

/-- SleepManager::getCooldownRemaining:
`remaining = s_nextPirAllowTime - now; return remaining > 0 ? remaining : 0`. -/
def getCooldownRemaining (nextPirAllowTime now : Int) : Int :=
  let remaining := nextPirAllowTime - now
  if remaining > 0 then remaining else 0

/-- SleepManager::startCooldown: the new value stored into the cell,
`s_nextPirAllowTime = getCurrentTimeSec() + seconds`. The previous cell value
is not read. -/
def startCooldown (now seconds : Int) : Int :=
  now + seconds

/-- Wake source selected by SleepManager::enterDeepSleep: a timer wake for the
remaining cooldown when in cooldown, otherwise a level wake on the PIR pin. -/
def enterDeepSleepArm (nextPirAllowTime now : Int) : WakeSource :=
  if isInCooldown nextPirAllowTime now then
    WakeSource.timerWake (getCooldownRemaining nextPirAllowTime now)
  else
    WakeSource.levelWake PIR_PIN

/-- List of wake-source arming calls executed by one run of
SleepManager::enterDeepSleep: the `if` branch calls
esp_sleep_enable_timer_wakeup once, the `else` branch calls
esp_sleep_enable_ext1_wakeup once. -/
def enterDeepSleepArmCalls (nextPirAllowTime now : Int) : List WakeSource :=
  if isInCooldown nextPirAllowTime now then
    [WakeSource.timerWake (getCooldownRemaining nextPirAllowTime now)]
  else
    [WakeSource.levelWake PIR_PIN]

/-! Operation-level view of the cooldown store, for the frame property: each
C++ member function is a state transformer on the persisted cell. The two
query bodies contain no assignment to `s_nextPirAllowTime`, so they return the
cell unchanged; `startCooldown` assigns `now + seconds`. -/

/-- One call into the cooldown store. -/
inductive CooldownOp where
  | queryInCooldown (now : Int)
  | queryRemaining (now : Int)
  | start (now seconds : Int)
deriving DecidableEq, Repr

/-- Effect of one cooldown-store call on the persisted cell. -/
def applyCooldownOp (cell : Int) : CooldownOp → Int
  | CooldownOp.queryInCooldown _ => cell
  | CooldownOp.queryRemaining _ => cell
  | CooldownOp.start now seconds => startCooldown now seconds

/-- Run a sequence of cooldown-store calls against the persisted cell. -/
def runCooldownOps (cell : Int) (ops : List CooldownOp) : Int :=
  ops.foldl applyCooldownOp cell

/-- Whether a cooldown-store call is the mutating `startCooldown` call. -/
def CooldownOp.isStart : CooldownOp → Bool
  | CooldownOp.start _ _ => true
  | _ => false

/-! Clock semantics across deep sleep, for the cross-sleep cooldown claim.
`getCurrentTimeSec` is documented in sleep_manager.hpp as seconds *since
boot* (it divides `esp_timer_get_time()`), and waking from deep sleep is a
full process restart (glossary: all working memory is lost except the RTC
region; app_main runs from scratch at every wake). Hence at each wake the
clock restarts from zero and reads seconds since that wake, while the
RTC cell `s_nextPirAllowTime` keeps its pre-sleep value. -/

/-- One cooldown-then-sleep-then-wake cycle. `startClock` is the boot-relative
clock value when `startCooldown` ran; `duration` the cooldown length;
`sleptFor` the real seconds spent in deep sleep; `wakeClock` the boot-relative
clock value (seconds since the new boot) when the post-wake query runs. -/
structure SleepCycle where
  startClock : Int
  duration : Int
  sleptFor : Int
  wakeClock : Int
deriving DecidableEq, Repr

/-- Value of the RTC cell after `startCooldown`, preserved across deep sleep. -/
def rtcAfterStart (c : SleepCycle) : Int :=
  startCooldown c.startClock c.duration

/-- Value `getCurrentTimeSec` returns at the post-wake query: seconds since
the new boot, because the esp_timer clock restarts at every boot. -/
def clockAtWakeQuery (c : SleepCycle) : Int :=
  c.wakeClock

/-- Remaining cooldown the code computes at the first query after the wake. -/
def codeRemainingAtWake (c : SleepCycle) : Int :=
  getCooldownRemaining (rtcAfterStart c) (clockAtWakeQuery c)

/-- Remaining cooldown the claim requires at that query: the started duration
minus the real elapsed time since the start, floored at zero. -/
def claimRemainingAtWake (c : SleepCycle) : Int :=
  max 0 (c.duration - (c.sleptFor + c.wakeClock))

/-! Drivers and the PIR-trigger pipeline (camera_driver.cpp, sdcard_driver.cpp,
app_main.cpp). A pipeline run is modelled as the trace of the resource,
notification and power events it performs, together with the final value of
the persisted cooldown cell. Hardware and collaborator outcomes are inputs. -/

/-- Observable events of a pipeline run. Acquire-style events record whether
the underlying call succeeded. -/
inductive Event where
  | sdMount (ok : Bool)
  | sdUnmount
  | camInit (ok : Bool)
  | camDeinit
  | fbGet (ok : Bool)
  | fbReturn
  | wifiConnect (ok : Bool)
  | wifiDisconnect
  | telegramSend (ok : Bool)
  | cooldownStart (seconds : Int)
  | powerDown (armed : WakeSource)
deriving DecidableEq, Repr

/-- Successful storage acquisition (esp_vfs_fat_sdmmc_mount returning ESP_OK). -/
def Event.isSdAcquire : Event → Bool
  | Event.sdMount true => true
  | _ => false

/-- Storage release (esp_vfs_fat_sdcard_unmount). -/
def Event.isSdRelease : Event → Bool
  | Event.sdUnmount => true
  | _ => false

/-- Successful imaging-session acquisition (CameraDriver::init returning ESP_OK
and setting m_initialized). -/
def Event.isCamAcquire : Event → Bool
  | Event.camInit true => true
  | _ => false

/-- Imaging-session release (esp_camera_deinit inside CameraDriver::shutdown). -/
def Event.isCamRelease : Event → Bool
  | Event.camDeinit => true
  | _ => false

/-- Successful frame-buffer acquisition (esp_camera_fb_get returning non-null). -/
def Event.isFrameAcquire : Event → Bool
  | Event.fbGet true => true
  | _ => false

/-- Frame-buffer release (esp_camera_fb_return). -/
def Event.isFrameRelease : Event → Bool
  | Event.fbReturn => true
  | _ => false

/-- Any discard-capture attempt (a call to esp_camera_fb_get). -/
def Event.isFbGet : Event → Bool
  | Event.fbGet _ => true
  | _ => false

/-- A SleepManager::startCooldown call. -/
def Event.isCooldownStart : Event → Bool
  | Event.cooldownStart _ => true
  | _ => false

/-- SdCardDriver::mount over the m_card flag. Returns (result is ESP_OK, new
m_card, events). When already mounted it returns ESP_OK untouched; on failure
m_card is left null. `hwOk` is the outcome of esp_vfs_fat_sdmmc_mount. -/
def SdCardDriver.mount (m_card : Bool) (hwOk : Bool) : Bool × Bool × List Event :=
  if m_card then (true, m_card, [])
  else if hwOk then (true, true, [Event.sdMount true])
  else (false, false, [Event.sdMount false])

/-- SdCardDriver::shutdown over the m_card flag: an early-return no-op when
nothing is mounted, otherwise unmount and clear m_card. Returns (new m_card,
events). -/
def SdCardDriver.shutdown (m_card : Bool) : Bool × List Event :=
  if !m_card then (m_card, [])
  else (false, [Event.sdUnmount])

/-- CameraDriver::init over the m_initialized flag. Returns (result is
ESP_OK, new m_initialized, events). When already initialized it returns
ESP_OK untouched. `hwOk` is the combined outcome of esp_camera_init and the
sensor lookup (the sensor-null path deinitializes internally and reports
failure with m_initialized still false). -/
def CameraDriver.init (m_initialized : Bool) (hwOk : Bool) : Bool × Bool × List Event :=
  if m_initialized then (true, m_initialized, [])
  else if hwOk then (true, true, [Event.camInit true])
  else (false, false, [Event.camInit false])

/-- CameraDriver::shutdown over the m_initialized flag: an early-return no-op
when not initialized, otherwise esp_camera_deinit and clear the flag.
Returns (new m_initialized, events). -/
def CameraDriver.shutdown (m_initialized : Bool) : Bool × List Event :=
  if !m_initialized then (m_initialized, [])
  else (false, [Event.camDeinit])

/-- Whether one warmup frame counts as valid in CameraDriver::warmup:
the frame buffer is non-null and `fb->len > MIN_FRAME_SIZE`. -/
def frameIsValid (fb : Option Nat) : Bool :=
  match fb with
  | some len => decide (len > MIN_FRAME_SIZE)
  | none => false

/-- Events of one warmup-loop iteration: a frame-buffer get, returned
immediately when non-null. -/
def warmupStep (fb : Option Nat) : List Event :=
  match fb with
  | some _ => [Event.fbGet true, Event.fbReturn]
  | none => [Event.fbGet false]

/-- Number of valid frames counted by the warmup loop over its fixed budget
of CAMERA_WARMUP_FRAMES iterations; `fb i` is the frame buffer the i-th
esp_camera_fb_get call yields. -/
def warmupValidFrames (fb : Nat → Option Nat) : Nat :=
  ((List.range CAMERA_WARMUP_FRAMES).filter (fun i => frameIsValid (fb i))).length

/-- CameraDriver::warmup result: false when not initialized, otherwise
`validFrames >= CAMERA_MIN_VALID_FRAMES`. -/
def CameraDriver.warmup (m_initialized : Bool) (fb : Nat → Option Nat) : Bool :=
  if !m_initialized then false
  else decide (warmupValidFrames fb ≥ CAMERA_MIN_VALID_FRAMES)

/-- Event trace of the warmup loop: CAMERA_WARMUP_FRAMES discard-capture
attempts, each returned immediately when non-null. -/
def warmupTrace (fb : Nat → Option Nat) : List Event :=
  (List.range CAMERA_WARMUP_FRAMES).flatMap (fun i => warmupStep (fb i))

/-- CameraDriver::capture: returns (held frame length or none, events). A
null frame buffer fails; a frame with `len < MIN_FRAME_SIZE` is returned to
the driver and the call fails; otherwise the frame is held by the caller. -/
def CameraDriver.capture (m_initialized : Bool) (fb : Option Nat) :
    Option Nat × List Event :=
  if !m_initialized then (none, [])
  else
    match fb with
    | none => (none, [Event.fbGet false])
    | some len =>
      if len < MIN_FRAME_SIZE then (none, [Event.fbGet true, Event.fbReturn])
      else (some len, [Event.fbGet true])

/-- DetectionResult (detector.hpp), with the float confidence modelled as a
rational. -/
structure DetectionResult where
  detected : Bool
  confidence : ℚ
  x : Int
  y : Int
  width : Int
  height : Int

/-- The STEP 6 branch condition of handlePirTrigger:
`result.detected && result.confidence >= config::detection::MIN_CONFIDENCE`. -/
def confidentDetection (r : DetectionResult) : Bool :=
  r.detected && decide (r.confidence ≥ MIN_CONFIDENCE)

/-- Collaborator outcomes one pipeline run observes: storage mount result,
camera init result, the frame buffers the warmup loop and the capture call
receive, the detection outcome, and the network results. -/
structure Env where
  sdMountOk : Bool
  camInitOk : Bool
  warmupFb : Nat → Option Nat
  captureFb : Option Nat
  detection : DetectionResult
  wifiOk : Bool
  telegramOk : Bool

/-- Events of the notification attempt in the confident branch: a WiFi
connect, and on success a Telegram send (whose failure is only logged)
followed by a disconnect. `wifiOk` models
`wifi.connect() == ESP_OK && wifi.isConnected()`. -/
def notifyTrace (env : Env) : List Event :=
  if env.wifiOk then
    [Event.wifiConnect true, Event.telegramSend env.telegramOk, Event.wifiDisconnect]
  else
    [Event.wifiConnect false]

/-- handlePirTrigger (app_main.cpp): the PIR-trigger pipeline. Produces the
event trace of the run and the final value of the persisted cooldown cell.
Each failure branch mirrors the code: shutdown calls on the current driver
states, then enterDeepSleep, which never returns. -/
def handlePirTrigger (cell now : Int) (env : Env) : List Event × Int :=
  if isInCooldown cell now then
    ([Event.powerDown (enterDeepSleepArm cell now)], cell)
  else
    let m := SdCardDriver.mount false env.sdMountOk
    if !m.1 then
      (m.2.2 ++ (SdCardDriver.shutdown m.2.1).2 ++
        [Event.powerDown (enterDeepSleepArm cell now)], cell)
    else
      let c := CameraDriver.init false env.camInitOk
      if !c.1 then
        (m.2.2 ++ c.2.2 ++ (CameraDriver.shutdown c.2.1).2 ++
          (SdCardDriver.shutdown m.2.1).2 ++
          [Event.powerDown (enterDeepSleepArm cell now)], cell)
      else
        if !CameraDriver.warmup c.2.1 env.warmupFb then
          (m.2.2 ++ c.2.2 ++ warmupTrace env.warmupFb ++
            (CameraDriver.shutdown c.2.1).2 ++ (SdCardDriver.shutdown m.2.1).2 ++
            [Event.powerDown (enterDeepSleepArm cell now)], cell)
        else
          let cap := CameraDriver.capture c.2.1 env.captureFb
          match cap.1 with
          | none =>
            (m.2.2 ++ c.2.2 ++ warmupTrace env.warmupFb ++ cap.2 ++
              (CameraDriver.shutdown c.2.1).2 ++ (SdCardDriver.shutdown m.2.1).2 ++
              [Event.powerDown (enterDeepSleepArm cell now)], cell)
          | some _ =>
            if confidentDetection env.detection then
              let cell2 := startCooldown now COOLDOWN_SECONDS
              (m.2.2 ++ c.2.2 ++ warmupTrace env.warmupFb ++ cap.2 ++
                notifyTrace env ++ [Event.cooldownStart COOLDOWN_SECONDS] ++
                [Event.fbReturn] ++ (CameraDriver.shutdown c.2.1).2 ++
                (SdCardDriver.shutdown m.2.1).2 ++
                [Event.powerDown (enterDeepSleepArm cell2 now)], cell2)
            else
              (m.2.2 ++ c.2.2 ++ warmupTrace env.warmupFb ++ cap.2 ++
                [Event.fbReturn] ++ (CameraDriver.shutdown c.2.1).2 ++
                (SdCardDriver.shutdown m.2.1).2 ++
                [Event.powerDown (enterDeepSleepArm cell now)], cell)

/-- Whether a run with this environment reaches STEP 6 and takes the
confident-detection branch. -/
def confidentRun (env : Env) : Bool :=
  env.sdMountOk && env.camInitOk && CameraDriver.warmup true env.warmupFb &&
    (CameraDriver.capture true env.captureFb).1.isSome &&
    confidentDetection env.detection

/-- Concrete environment for witnesses: every stage succeeds, detection at 82
percent confidence, the Telegram send fails (scenario C of the spec). -/
def envAllOk : Env :=
  { sdMountOk := true
    camInitOk := true
    warmupFb := fun _ => some 2000
    captureFb := some 2000
    detection :=
      { detected := true, confidence := 82/100, x := 10, y := 20,
        width := 30, height := 40 }
    wifiOk := true
    telegramOk := false }

/-- Concrete environment whose warmup frames are all null. -/
def envWarmupFail : Env := { envAllOk with warmupFb := fun _ => none }

/-- Concrete environment with a negative detection outcome. -/
def envNoDetect : Env :=
  { envAllOk with
    detection :=
      { detected := false, confidence := 1/10, x := 0, y := 0,
        width := 0, height := 0 } }

/-! Helper lemmas about the wake arbiter and the warmup / notify traces. -/

/-- Boolean helper: a Bool that is not true is false. -/
lemma bool_eq_false {b : Bool} (h : ¬ b = true) : b = false := by
  cases b
  · rfl
  · exact absurd rfl h

/-- When not in cooldown, enterDeepSleep arms the level wake on the PIR pin. -/
lemma arm_not_cooldown {cell now : Int} (h : isInCooldown cell now = false) :
    enterDeepSleepArm cell now = WakeSource.levelWake PIR_PIN := by
  simp [enterDeepSleepArm, h]

/-- Right after startCooldown, enterDeepSleep arms a timer wake for the full
cooldown duration. -/
lemma arm_after_start (now : Int) :
    enterDeepSleepArm (startCooldown now COOLDOWN_SECONDS) now =
      WakeSource.timerWake COOLDOWN_SECONDS := by
  have h1 : (now : Int) < now + 3600 := by omega
  have h2 : now + 3600 - now = 3600 := by omega
  simp [enterDeepSleepArm, isInCooldown, getCooldownRemaining, startCooldown,
    COOLDOWN_SECONDS, h1, h2]

/-- Every event of a warmup step is a frame get or a frame return. -/
lemma warmupStep_shape (fb : Option Nat) :
    warmupStep fb = [Event.fbGet true, Event.fbReturn] ∨
      warmupStep fb = [Event.fbGet false] := by
  cases fb <;> simp [warmupStep]

/-- Every event of the warmup trace is a frame get or a frame return. -/
lemma warmupTrace_mem {fb : Nat → Option Nat} {e : Event}
    (he : e ∈ warmupTrace fb) :
    (∃ b, e = Event.fbGet b) ∨ e = Event.fbReturn := by
  simp only [warmupTrace, List.mem_flatMap] at he
  obtain ⟨i, -, hi⟩ := he
  rcases warmupStep_shape (fb i) with h | h <;> rw [h] at hi <;> simp at hi
  · rcases hi with rfl | rfl
    · exact Or.inl ⟨true, rfl⟩
    · exact Or.inr rfl
  · exact Or.inl ⟨false, hi⟩

/-- The warmup trace contains no event besides frame gets and returns. -/
lemma warmupTrace_countP_zero (fb : Nat → Option Nat) {p : Event → Bool}
    (hg : ∀ b, p (Event.fbGet b) = false) (hr : p Event.fbReturn = false) :
    (warmupTrace fb).countP p = 0 := by
  rw [List.countP_eq_zero]
  intro e he
  rcases warmupTrace_mem he with ⟨b, rfl⟩ | rfl
  · simp [hg b]
  · simp [hr]

/-- Filtering the warmup trace by anything other than frame events is empty. -/
lemma warmupTrace_filter_nil (fb : Nat → Option Nat) {p : Event → Bool}
    (hg : ∀ b, p (Event.fbGet b) = false) (hr : p Event.fbReturn = false) :
    (warmupTrace fb).filter p = [] := by
  rw [List.filter_eq_nil_iff]
  intro e he
  rcases warmupTrace_mem he with ⟨b, rfl⟩ | rfl
  · simp [hg b]
  · simp [hr]

lemma warmupTrace_sdAcq (fb : Nat → Option Nat) :
    (warmupTrace fb).countP Event.isSdAcquire = 0 :=
  warmupTrace_countP_zero fb (fun _ => rfl) rfl

lemma warmupTrace_sdRel (fb : Nat → Option Nat) :
    (warmupTrace fb).countP Event.isSdRelease = 0 :=
  warmupTrace_countP_zero fb (fun _ => rfl) rfl

lemma warmupTrace_camAcq (fb : Nat → Option Nat) :
    (warmupTrace fb).countP Event.isCamAcquire = 0 :=
  warmupTrace_countP_zero fb (fun _ => rfl) rfl

lemma warmupTrace_camRel (fb : Nat → Option Nat) :
    (warmupTrace fb).countP Event.isCamRelease = 0 :=
  warmupTrace_countP_zero fb (fun _ => rfl) rfl

lemma warmupTrace_filter_start (fb : Nat → Option Nat) :
    (warmupTrace fb).filter Event.isCooldownStart = [] :=
  warmupTrace_filter_nil fb (fun _ => rfl) rfl

lemma warmupTrace_filter_rel (fb : Nat → Option Nat) :
    (warmupTrace fb).filter
      (fun e => Event.isCamRelease e || Event.isSdRelease e) = [] :=
  warmupTrace_filter_nil fb (fun _ => rfl) rfl

/-- In the warmup trace, frame gets that succeed are exactly balanced by
frame returns: each non-null buffer is returned immediately. -/
lemma warmup_frame_balance_aux (fb : Nat → Option Nat) (l : List Nat) :
    ((l.flatMap fun i => warmupStep (fb i)).countP Event.isFrameAcquire) =
      ((l.flatMap fun i => warmupStep (fb i)).countP Event.isFrameRelease) := by
  induction l with
  | nil => rfl
  | cons a t ih =>
    rw [List.flatMap_cons, List.countP_append, List.countP_append, ih]
    rcases warmupStep_shape (fb a) with h | h <;> rw [h] <;> rfl

lemma warmupTrace_frame_balance (fb : Nat → Option Nat) :
    (warmupTrace fb).countP Event.isFrameAcquire =
      (warmupTrace fb).countP Event.isFrameRelease :=
  warmup_frame_balance_aux fb (List.range CAMERA_WARMUP_FRAMES)

/-- Each warmup iteration performs exactly one discard-capture attempt. -/
lemma warmup_fbGet_count_aux (fb : Nat → Option Nat) (l : List Nat) :
    ((l.flatMap fun i => warmupStep (fb i)).countP Event.isFbGet) = l.length := by
  induction l with
  | nil => rfl
  | cons a t ih =>
    rw [List.flatMap_cons, List.countP_append, ih]
    rcases warmupStep_shape (fb a) with h | h <;> rw [h] <;>
      simp [List.countP_cons, Event.isFbGet] <;> omega

/-- The warmup trace performs exactly CAMERA_WARMUP_FRAMES discard-capture
attempts. -/
lemma warmupTrace_fbGet_count (fb : Nat → Option Nat) :
    (warmupTrace fb).countP Event.isFbGet = CAMERA_WARMUP_FRAMES := by
  unfold warmupTrace
  rw [warmup_fbGet_count_aux, List.length_range]

lemma notifyTrace_sdAcq (env : Env) :
    (notifyTrace env).countP Event.isSdAcquire = 0 := by
  unfold notifyTrace; split <;> rfl

lemma notifyTrace_sdRel (env : Env) :
    (notifyTrace env).countP Event.isSdRelease = 0 := by
  unfold notifyTrace; split <;> rfl

lemma notifyTrace_camAcq (env : Env) :
    (notifyTrace env).countP Event.isCamAcquire = 0 := by
  unfold notifyTrace; split <;> rfl

lemma notifyTrace_camRel (env : Env) :
    (notifyTrace env).countP Event.isCamRelease = 0 := by
  unfold notifyTrace; split <;> rfl

lemma notifyTrace_frameAcq (env : Env) :
    (notifyTrace env).countP Event.isFrameAcquire = 0 := by
  unfold notifyTrace; split <;> rfl

lemma notifyTrace_frameRel (env : Env) :
    (notifyTrace env).countP Event.isFrameRelease = 0 := by
  unfold notifyTrace; split <;> rfl

lemma notifyTrace_filter_start (env : Env) :
    (notifyTrace env).filter Event.isCooldownStart = [] := by
  unfold notifyTrace; split <;> rfl

lemma notifyTrace_filter_rel (env : Env) :
    (notifyTrace env).filter
      (fun e => Event.isCamRelease e || Event.isSdRelease e) = [] := by
  unfold notifyTrace; split <;> rfl

/-- Filtering the notify trace by anything other than network events is
empty. -/
lemma notifyTrace_filter_nil (env : Env) {p : Event → Bool}
    (h1 : ∀ b, p (Event.wifiConnect b) = false)
    (h2 : p Event.wifiDisconnect = false)
    (h3 : ∀ b, p (Event.telegramSend b) = false) :
    (notifyTrace env).filter p = [] := by
  unfold notifyTrace
  split <;> simp [List.filter_cons, h1, h2, h3]

/-- Every event of the notify trace is a WiFi or Telegram event. -/
lemma notifyTrace_mem {env : Env} {e : Event} (he : e ∈ notifyTrace env) :
    (∃ b, e = Event.wifiConnect b) ∨ e = Event.wifiDisconnect ∨
      ∃ b, e = Event.telegramSend b := by
  unfold notifyTrace at he
  split at he <;> simp at he
  · rcases he with rfl | rfl | rfl
    · exact Or.inl ⟨true, rfl⟩
    · exact Or.inr (Or.inr ⟨env.telegramOk, rfl⟩)
    · exact Or.inr (Or.inl rfl)
  · exact Or.inl ⟨false, he⟩

/-! Path-shape lemmas: the exact trace and final cell of each pipeline exit
path. -/

/-- Defensive re-check path: trigger while still in cooldown. -/
lemma run_cooldown {cell now : Int} (env : Env)
    (h : isInCooldown cell now = true) :
    handlePirTrigger cell now env =
      ([Event.powerDown (WakeSource.timerWake (getCooldownRemaining cell now))],
        cell) := by
  simp [handlePirTrigger, h, enterDeepSleepArm]

/-- Storage mount failure path. -/
lemma run_mountFail {cell now : Int} {env : Env}
    (h : isInCooldown cell now = false) (hsd : env.sdMountOk = false) :
    handlePirTrigger cell now env =
      ([Event.sdMount false, Event.powerDown (WakeSource.levelWake PIR_PIN)],
        cell) := by
  simp [handlePirTrigger, h, hsd, SdCardDriver.mount, SdCardDriver.shutdown,
    arm_not_cooldown h]

/-- Camera init failure path: camera shutdown is a no-op, storage released. -/
lemma run_initFail {cell now : Int} {env : Env}
    (h : isInCooldown cell now = false) (hsd : env.sdMountOk = true)
    (hcam : env.camInitOk = false) :
    handlePirTrigger cell now env =
      ([Event.sdMount true, Event.camInit false, Event.sdUnmount,
        Event.powerDown (WakeSource.levelWake PIR_PIN)], cell) := by
  simp [handlePirTrigger, h, hsd, hcam, SdCardDriver.mount, SdCardDriver.shutdown,
    CameraDriver.init, CameraDriver.shutdown, arm_not_cooldown h]

/-- Warmup failure path: camera and storage released in reverse order. -/
lemma run_warmupFail {cell now : Int} {env : Env}
    (h : isInCooldown cell now = false) (hsd : env.sdMountOk = true)
    (hcam : env.camInitOk = true)
    (hw : CameraDriver.warmup true env.warmupFb = false) :
    handlePirTrigger cell now env =
      (Event.sdMount true :: Event.camInit true ::
        (warmupTrace env.warmupFb ++
          [Event.camDeinit, Event.sdUnmount,
            Event.powerDown (WakeSource.levelWake PIR_PIN)]), cell) := by
  simp [handlePirTrigger, h, hsd, hcam, hw, SdCardDriver.mount,
    SdCardDriver.shutdown, CameraDriver.init, CameraDriver.shutdown,
    arm_not_cooldown h]

/-- Capture failure path, null frame buffer. -/
lemma run_captureNone {cell now : Int} {env : Env}
    (h : isInCooldown cell now = false) (hsd : env.sdMountOk = true)
    (hcam : env.camInitOk = true)
    (hw : CameraDriver.warmup true env.warmupFb = true)
    (hfb : env.captureFb = none) :
    handlePirTrigger cell now env =
      (Event.sdMount true :: Event.camInit true ::
        (warmupTrace env.warmupFb ++
          [Event.fbGet false, Event.camDeinit, Event.sdUnmount,
            Event.powerDown (WakeSource.levelWake PIR_PIN)]), cell) := by
  simp [handlePirTrigger, h, hsd, hcam, hw, hfb, SdCardDriver.mount,
    SdCardDriver.shutdown, CameraDriver.init, CameraDriver.shutdown,
    CameraDriver.capture, arm_not_cooldown h]

/-- Capture failure path, frame below the minimum size: the frame is returned
inside capture and the run fails. -/
lemma run_captureSmall {cell now : Int} {env : Env} {len : Nat}
    (h : isInCooldown cell now = false) (hsd : env.sdMountOk = true)
    (hcam : env.camInitOk = true)
    (hw : CameraDriver.warmup true env.warmupFb = true)
    (hfb : env.captureFb = some len) (hlen : len < MIN_FRAME_SIZE) :
    handlePirTrigger cell now env =
      (Event.sdMount true :: Event.camInit true ::
        (warmupTrace env.warmupFb ++
          [Event.fbGet true, Event.fbReturn, Event.camDeinit, Event.sdUnmount,
            Event.powerDown (WakeSource.levelWake PIR_PIN)]), cell) := by
  simp [handlePirTrigger, h, hsd, hcam, hw, hfb, hlen, SdCardDriver.mount,
    SdCardDriver.shutdown, CameraDriver.init, CameraDriver.shutdown,
    CameraDriver.capture, arm_not_cooldown h]

/-- Negative or below-threshold detection path: no cooldown, frame returned,
camera and storage released. -/
lemma run_notConfident {cell now : Int} {env : Env} {len : Nat}
    (h : isInCooldown cell now = false) (hsd : env.sdMountOk = true)
    (hcam : env.camInitOk = true)
    (hw : CameraDriver.warmup true env.warmupFb = true)
    (hfb : env.captureFb = some len) (hlen : ¬ len < MIN_FRAME_SIZE)
    (hdet : confidentDetection env.detection = false) :
    handlePirTrigger cell now env =
      (Event.sdMount true :: Event.camInit true ::
        (warmupTrace env.warmupFb ++
          [Event.fbGet true, Event.fbReturn, Event.camDeinit, Event.sdUnmount,
            Event.powerDown (WakeSource.levelWake PIR_PIN)]), cell) := by
  simp [handlePirTrigger, h, hsd, hcam, hw, hfb, hlen, hdet, SdCardDriver.mount,
    SdCardDriver.shutdown, CameraDriver.init, CameraDriver.shutdown,
    CameraDriver.capture, arm_not_cooldown h]

/-- Confident detection path: notify attempt, unconditional cooldown start,
then release and a timer-wake power-down. -/
lemma run_confident {cell now : Int} {env : Env} {len : Nat}
    (h : isInCooldown cell now = false) (hsd : env.sdMountOk = true)
    (hcam : env.camInitOk = true)
    (hw : CameraDriver.warmup true env.warmupFb = true)
    (hfb : env.captureFb = some len) (hlen : ¬ len < MIN_FRAME_SIZE)
    (hdet : confidentDetection env.detection = true) :
    handlePirTrigger cell now env =
      (Event.sdMount true :: Event.camInit true ::
        (warmupTrace env.warmupFb ++
          Event.fbGet true :: (notifyTrace env ++
            [Event.cooldownStart COOLDOWN_SECONDS, Event.fbReturn,
              Event.camDeinit, Event.sdUnmount,
              Event.powerDown (WakeSource.timerWake COOLDOWN_SECONDS)])),
        startCooldown now COOLDOWN_SECONDS) := by
  simp [handlePirTrigger, h, hsd, hcam, hw, hfb, hlen, hdet, SdCardDriver.mount,
    SdCardDriver.shutdown, CameraDriver.init, CameraDriver.shutdown,
    CameraDriver.capture, arm_after_start]

/-! Theorems. -/

/-- C2: every run of enterDeepSleep arms exactly one wake source — a timer
wake carrying the remaining cooldown when in cooldown, a level wake on the
PIR pin otherwise; never zero sources and never both. -/
theorem C2_exactly_one_wake_source_armed :
    ∀ (cell now : Int),
      (enterDeepSleepArmCalls cell now).length = 1 ∧
      ((isInCooldown cell now = true ∧
          enterDeepSleepArmCalls cell now =
            [WakeSource.timerWake (getCooldownRemaining cell now)]) ∨
        (isInCooldown cell now = false ∧
          enterDeepSleepArmCalls cell now = [WakeSource.levelWake PIR_PIN])) := by
  intro cell now
  by_cases h : isInCooldown cell now = true
  · exact ⟨by simp [enterDeepSleepArmCalls, h], Or.inl ⟨h, by simp [enterDeepSleepArmCalls, h]⟩⟩
  · have h2 : isInCooldown cell now = false := by
      cases hb : isInCooldown cell now
      · rfl
      · exact absurd hb h
    exact ⟨by simp [enterDeepSleepArmCalls, h2], Or.inr ⟨h2, by simp [enterDeepSleepArmCalls, h2]⟩⟩

/-- C6: for every persisted cell value and every now, getCooldownRemaining is
exactly max(0, cell - now), and it is zero exactly when isInCooldown is
false. -/
theorem C6_remaining_is_clamped_difference :
    ∀ (allowedAfter now : Int),
      getCooldownRemaining allowedAfter now = max 0 (allowedAfter - now) ∧
      (getCooldownRemaining allowedAfter now = 0 ↔ isInCooldown allowedAfter now = false) := by
  intro a n
  constructor
  · simp only [getCooldownRemaining]
    split <;> omega
  · simp only [getCooldownRemaining, isInCooldown, decide_eq_false_iff_not, not_lt]
    split <;> omega

/-- C7: the persisted cell changes only through startCooldown — any sequence
of query calls leaves it unchanged — and a startCooldown call overwrites the
cell with now + seconds regardless of its previous value (last-writer-wins,
no additive stacking). -/
theorem C7_cell_changes_only_via_start :
    (∀ (cell : Int) (ops : List CooldownOp),
        (∀ op ∈ ops, op.isStart = false) → runCooldownOps cell ops = cell) ∧
      (∀ (cell now seconds : Int) (ops : List CooldownOp),
        runCooldownOps cell (ops ++ [CooldownOp.start now seconds]) = now + seconds) := by
  constructor
  · intro cell ops h
    induction ops generalizing cell with
    | nil => rfl
    | cons op t ih =>
      have hop : op.isStart = false := h op (List.mem_cons_self op t)
      have ht : ∀ x ∈ t, CooldownOp.isStart x = false := fun x hx => h x (List.mem_cons_of_mem op hx)
      cases op with
      | queryInCooldown n => exact ih cell ht
      | queryRemaining n => exact ih cell ht
      | start n s => simp [CooldownOp.isStart] at hop
  · intro cell now seconds ops
    simp [runCooldownOps, List.foldl_append, applyCooldownOp, startCooldown]

/-- C7 witness: two queries leave the cell at 7; appending a start overwrites
an existing cooldown with now + seconds. -/
theorem C7_cell_changes_only_via_start_witness :
    runCooldownOps 7 [CooldownOp.queryInCooldown 3, CooldownOp.queryRemaining 4] = 7 ∧
      runCooldownOps 7 [CooldownOp.queryRemaining 1, CooldownOp.start 10 3600] = 3610 :=
  ⟨C7_cell_changes_only_via_start.1 7 _ (by decide),
    C7_cell_changes_only_via_start.2 7 10 3600 [CooldownOp.queryRemaining 1]⟩

/-- C1 is false of the code: getCurrentTimeSec counts seconds since boot and
restarts at every deep-sleep wake, while the cooldown cell persists in RTC
memory. A cooldown of 3600 s started at boot-relative time 100 s, slept
through in full (timer wake after 3600 real seconds, queried 1 s after the
new boot), leaves the code reporting 3699 s remaining — nearly the full
cooldown again — where the claim requires 0; the arbiter therefore arms
another timer wake instead of re-arming the PIR. -/
theorem C1_clock_resets_across_sleep_counterexample :
    codeRemainingAtWake ⟨100, 3600, 3600, 1⟩ = 3699 ∧
      claimRemainingAtWake ⟨100, 3600, 3600, 1⟩ = 0 ∧
      isInCooldown (rtcAfterStart ⟨100, 3600, 3600, 1⟩)
          (clockAtWakeQuery ⟨100, 3600, 3600, 1⟩) = true ∧
      enterDeepSleepArm (rtcAfterStart ⟨100, 3600, 3600, 1⟩)
          (clockAtWakeQuery ⟨100, 3600, 3600, 1⟩) = WakeSource.timerWake 3699 := by
  refine ⟨by decide, by decide, by decide, by decide⟩

/-- C5: if the persisted cooldown is still active when the PIR-trigger
pipeline starts, the run aborts straight to power-down with a timer wake for
the remaining cooldown: its whole trace is that single power-down event — no
storage mount, no imaging init, no capture — and the persisted cell is
untouched. -/
theorem C5_cooldown_recheck_aborts_before_acquisition :
    ∀ (cell now : Int) (env : Env), isInCooldown cell now = true →
      handlePirTrigger cell now env =
        ([Event.powerDown (WakeSource.timerWake (getCooldownRemaining cell now))],
          cell) := by
  intro cell now env h
  exact run_cooldown env h

/-- C5 witness: cell 5 at time 0 is in cooldown; the run is a single
power-down arming a timer wake for the remaining five seconds. -/
theorem C5_cooldown_recheck_aborts_before_acquisition_witness :
    isInCooldown 5 0 = true ∧
      handlePirTrigger 5 0 envAllOk =
        ([Event.powerDown (WakeSource.timerWake (getCooldownRemaining 5 0))], 5) :=
  ⟨by decide, C5_cooldown_recheck_aborts_before_acquisition 5 0 envAllOk (by decide)⟩

/-- C3: whenever the pipeline reaches a detection with detected set and
confidence at or above the configured threshold, startCooldown with the
configured cooldown duration is called exactly once and before power-down,
for every WiFi outcome and every Telegram outcome. -/
theorem C3_cooldown_started_exactly_once_on_confident_detection :
    ∀ (cell now : Int) (env : Env),
      isInCooldown cell now = false →
      env.sdMountOk = true → env.camInitOk = true →
      CameraDriver.warmup true env.warmupFb = true →
      (CameraDriver.capture true env.captureFb).1.isSome = true →
      confidentDetection env.detection = true →
      ((handlePirTrigger cell now env).1.filter Event.isCooldownStart =
          [Event.cooldownStart COOLDOWN_SECONDS] ∧
        (handlePirTrigger cell now env).2 = startCooldown now COOLDOWN_SECONDS ∧
        ∃ pre, (handlePirTrigger cell now env).1 =
          pre ++ [Event.cooldownStart COOLDOWN_SECONDS, Event.fbReturn,
            Event.camDeinit, Event.sdUnmount,
            Event.powerDown (WakeSource.timerWake COOLDOWN_SECONDS)]) := by
  intro cell now env h hsd hcam hw hcap hdet
  obtain ⟨len, hfb, hlen⟩ :
      ∃ len, env.captureFb = some len ∧ ¬ len < MIN_FRAME_SIZE := by
    cases hfb : env.captureFb with
    | none => simp [CameraDriver.capture, hfb] at hcap
    | some len =>
      by_cases hl : len < MIN_FRAME_SIZE
      · simp [CameraDriver.capture, hfb, hl] at hcap
      · exact ⟨len, rfl, hl⟩
  rw [run_confident h hsd hcam hw hfb hlen hdet]
  refine ⟨?_, rfl, ?_⟩
  · simp [List.filter_cons, List.filter_append, warmupTrace_filter_start,
      notifyTrace_filter_start, Event.isCooldownStart]
  · exact ⟨Event.sdMount true :: Event.camInit true ::
      (warmupTrace env.warmupFb ++ Event.fbGet true :: notifyTrace env),
      by simp⟩

/-- C3 witness: scenario C — all stages succeed, confidence 0.82 against
threshold 0.5, Telegram send fails; the cooldown is still started exactly
once. -/
theorem C3_cooldown_started_exactly_once_on_confident_detection_witness :
    confidentDetection envAllOk.detection = true ∧
      (handlePirTrigger 0 0 envAllOk).1.filter Event.isCooldownStart =
        [Event.cooldownStart COOLDOWN_SECONDS] :=
  ⟨by norm_num [confidentDetection, envAllOk, MIN_CONFIDENCE],
    (C3_cooldown_started_exactly_once_on_confident_detection 0 0 envAllOk
      (by decide) (by decide) (by decide) (by decide) (by decide)
      (by norm_num [confidentDetection, envAllOk, MIN_CONFIDENCE])).1⟩

/-- C4: on every failing pipeline path — mount failure, camera init failure,
warmup failure, capture failure, or a not-detected / below-threshold
detection — startCooldown is never called, the persisted cell keeps its
entry value, and the run powers down with the level wake on the PIR pin
armed. -/
theorem C4_failure_paths_start_no_cooldown :
    ∀ (cell now : Int) (env : Env),
      isInCooldown cell now = false →
      confidentRun env = false →
      ((handlePirTrigger cell now env).1.filter Event.isCooldownStart = [] ∧
        (handlePirTrigger cell now env).2 = cell ∧
        ∃ pre, (handlePirTrigger cell now env).1 =
          pre ++ [Event.powerDown (WakeSource.levelWake PIR_PIN)]) := by
  intro cell now env h hc
  cases hsd : env.sdMountOk with
  | false =>
    rw [run_mountFail h hsd]
    exact ⟨rfl, rfl, ⟨[Event.sdMount false], rfl⟩⟩
  | true =>
    cases hcam : env.camInitOk with
    | false =>
      rw [run_initFail h hsd hcam]
      exact ⟨rfl, rfl,
        ⟨[Event.sdMount true, Event.camInit false, Event.sdUnmount], rfl⟩⟩
    | true =>
      cases hw : CameraDriver.warmup true env.warmupFb with
      | false =>
        rw [run_warmupFail h hsd hcam hw]
        refine ⟨?_, rfl, ?_⟩
        · simp [List.filter_cons, List.filter_append, warmupTrace_filter_start,
            Event.isCooldownStart]
        · exact ⟨Event.sdMount true :: Event.camInit true ::
            (warmupTrace env.warmupFb ++ [Event.camDeinit, Event.sdUnmount]),
            by simp⟩
      | true =>
        cases hfb : env.captureFb with
        | none =>
          rw [run_captureNone h hsd hcam hw hfb]
          refine ⟨?_, rfl, ?_⟩
          · simp [List.filter_cons, List.filter_append, warmupTrace_filter_start,
              Event.isCooldownStart]
          · exact ⟨Event.sdMount true :: Event.camInit true ::
              (warmupTrace env.warmupFb ++
                [Event.fbGet false, Event.camDeinit, Event.sdUnmount]),
              by simp⟩
        | some len =>
          by_cases hlen : len < MIN_FRAME_SIZE
          · rw [run_captureSmall h hsd hcam hw hfb hlen]
            refine ⟨?_, rfl, ?_⟩
            · simp [List.filter_cons, List.filter_append,
                warmupTrace_filter_start, Event.isCooldownStart]
            · exact ⟨Event.sdMount true :: Event.camInit true ::
                (warmupTrace env.warmupFb ++
                  [Event.fbGet true, Event.fbReturn, Event.camDeinit,
                    Event.sdUnmount]),
                by simp⟩
          · cases hdet : confidentDetection env.detection with
            | false =>
              rw [run_notConfident h hsd hcam hw hfb hlen hdet]
              refine ⟨?_, rfl, ?_⟩
              · simp [List.filter_cons, List.filter_append,
                  warmupTrace_filter_start, Event.isCooldownStart]
              · exact ⟨Event.sdMount true :: Event.camInit true ::
                  (warmupTrace env.warmupFb ++
                    [Event.fbGet true, Event.fbReturn, Event.camDeinit,
                      Event.sdUnmount]),
                  by simp⟩
            | true =>
              exfalso
              simp [confidentRun, hsd, hcam, hw, hfb, hdet,
                CameraDriver.capture, hlen] at hc

/-- C4 witness: scenario with a negative detection — no cooldown started,
cell unchanged at 0. -/
theorem C4_failure_paths_start_no_cooldown_witness :
    confidentRun envNoDetect = false ∧
      (handlePirTrigger 0 0 envNoDetect).1.filter Event.isCooldownStart = [] ∧
      (handlePirTrigger 0 0 envNoDetect).2 = 0 :=
  ⟨by decide,
    (C4_failure_paths_start_no_cooldown 0 0 envNoDetect (by decide)
      (by decide)).1,
    (C4_failure_paths_start_no_cooldown 0 0 envNoDetect (by decide)
      (by decide)).2.1⟩

/-- C8: the warmup stage performs exactly the configured budget of
discard-capture attempts and succeeds exactly when at least the configured
minimum count of frames meets the minimum-size criterion; when it fails, the
pipeline releases the imaging session then the storage session and powers
down with no cooldown started and the cell unchanged. -/
theorem C8_warmup_budget_and_failure_path :
    (∀ fb : Nat → Option Nat,
        (warmupTrace fb).countP Event.isFbGet = CAMERA_WARMUP_FRAMES ∧
        (CameraDriver.warmup true fb = true ↔
          CAMERA_MIN_VALID_FRAMES ≤ warmupValidFrames fb)) ∧
      (∀ (cell now : Int) (env : Env),
        isInCooldown cell now = false → env.sdMountOk = true →
        env.camInitOk = true → CameraDriver.warmup true env.warmupFb = false →
        ((handlePirTrigger cell now env).1 =
            Event.sdMount true :: Event.camInit true ::
              (warmupTrace env.warmupFb ++
                [Event.camDeinit, Event.sdUnmount,
                  Event.powerDown (WakeSource.levelWake PIR_PIN)]) ∧
          (handlePirTrigger cell now env).2 = cell ∧
          (handlePirTrigger cell now env).1.filter Event.isCooldownStart = [])) := by
  constructor
  · intro fb
    refine ⟨warmupTrace_fbGet_count fb, ?_⟩
    simp [CameraDriver.warmup, ge_iff_le]
  · intro cell now env h hsd hcam hw
    rw [run_warmupFail h hsd hcam hw]
    refine ⟨rfl, rfl, ?_⟩
    simp [List.filter_cons, List.filter_append, warmupTrace_filter_start,
      Event.isCooldownStart]

/-- C8 witness: with all warmup frames null the warmup stage fails and the
run powers down with no cooldown started and the cell unchanged at 0. -/
theorem C8_warmup_budget_and_failure_path_witness :
    CameraDriver.warmup true envWarmupFail.warmupFb = false ∧
      (handlePirTrigger 0 0 envWarmupFail).1.filter Event.isCooldownStart = [] ∧
      (handlePirTrigger 0 0 envWarmupFail).2 = 0 :=
  ⟨by decide,
    (C8_warmup_budget_and_failure_path.2 0 0 envWarmupFail (by decide)
      (by decide) (by decide) (by decide)).2.2,
    (C8_warmup_budget_and_failure_path.2 0 0 envWarmupFail (by decide)
      (by decide) (by decide) (by decide)).2.1⟩

/-- C9: in every pipeline run, successful acquisitions and releases balance
for each resource type — storage session, imaging session, captured frame —
and on every path that acquired the imaging session the releases occur in
reverse acquisition order: the imaging release strictly before the storage
release. -/
theorem C9_resource_release_balance_and_order :
    ∀ (cell now : Int) (env : Env),
      ((handlePirTrigger cell now env).1.countP Event.isSdAcquire =
          (handlePirTrigger cell now env).1.countP Event.isSdRelease) ∧
      ((handlePirTrigger cell now env).1.countP Event.isCamAcquire =
          (handlePirTrigger cell now env).1.countP Event.isCamRelease) ∧
      ((handlePirTrigger cell now env).1.countP Event.isFrameAcquire =
          (handlePirTrigger cell now env).1.countP Event.isFrameRelease) ∧
      (isInCooldown cell now = false → env.sdMountOk = true →
        env.camInitOk = true →
        (handlePirTrigger cell now env).1.filter
            (fun e => Event.isCamRelease e || Event.isSdRelease e) =
          [Event.camDeinit, Event.sdUnmount]) := by
  intro cell now env
  by_cases h : isInCooldown cell now = true
  · rw [run_cooldown env h]
    refine ⟨rfl, rfl, rfl, ?_⟩
    intro h1 _ _
    rw [h] at h1
    exact absurd h1 (by decide)
  · have h0 : isInCooldown cell now = false := bool_eq_false h
    cases hsd : env.sdMountOk with
    | false =>
      rw [run_mountFail h0 hsd]
      refine ⟨rfl, rfl, rfl, ?_⟩
      intro _ h2 _
      exact absurd h2 (by decide)
    | true =>
      cases hcam : env.camInitOk with
      | false =>
        rw [run_initFail h0 hsd hcam]
        refine ⟨rfl, rfl, rfl, ?_⟩
        intro _ _ h3
        exact absurd h3 (by decide)
      | true =>
        cases hw : CameraDriver.warmup true env.warmupFb with
        | false =>
          rw [run_warmupFail h0 hsd hcam hw]
          refine ⟨?_, ?_, ?_, fun _ _ _ => ?_⟩ <;>
            simp [List.countP_cons, List.countP_append, List.filter_cons,
              List.filter_append, warmupTrace_sdAcq, warmupTrace_sdRel,
              warmupTrace_camAcq, warmupTrace_camRel, warmupTrace_frame_balance,
              warmupTrace_filter_rel, Event.isSdAcquire, Event.isSdRelease, Event.isCamAcquire, Event.isCamRelease, Event.isFrameAcquire, Event.isFrameRelease]
          intro a ha
          rcases warmupTrace_mem ha with ⟨b, rfl⟩ | rfl <;> exact ⟨rfl, rfl⟩
        | true =>
          cases hfb : env.captureFb with
          | none =>
            rw [run_captureNone h0 hsd hcam hw hfb]
            refine ⟨?_, ?_, ?_, fun _ _ _ => ?_⟩ <;>
              simp [List.countP_cons, List.countP_append, List.filter_cons,
                List.filter_append, warmupTrace_sdAcq, warmupTrace_sdRel,
                warmupTrace_camAcq, warmupTrace_camRel,
                warmupTrace_frame_balance, warmupTrace_filter_rel, Event.isSdAcquire, Event.isSdRelease, Event.isCamAcquire, Event.isCamRelease, Event.isFrameAcquire, Event.isFrameRelease]
            intro a ha
            rcases warmupTrace_mem ha with ⟨b, rfl⟩ | rfl <;> exact ⟨rfl, rfl⟩
          | some len =>
            by_cases hlen : len < MIN_FRAME_SIZE
            · rw [run_captureSmall h0 hsd hcam hw hfb hlen]
              refine ⟨?_, ?_, ?_, fun _ _ _ => ?_⟩ <;>
                simp [List.countP_cons, List.countP_append, List.filter_cons,
                  List.filter_append, warmupTrace_sdAcq, warmupTrace_sdRel,
                  warmupTrace_camAcq, warmupTrace_camRel,
                  warmupTrace_frame_balance, warmupTrace_filter_rel, Event.isSdAcquire, Event.isSdRelease, Event.isCamAcquire, Event.isCamRelease, Event.isFrameAcquire, Event.isFrameRelease]
              intro a ha
              rcases warmupTrace_mem ha with ⟨b, rfl⟩ | rfl <;> exact ⟨rfl, rfl⟩
            · cases hdet : confidentDetection env.detection with
              | false =>
                rw [run_notConfident h0 hsd hcam hw hfb hlen hdet]
                refine ⟨?_, ?_, ?_, fun _ _ _ => ?_⟩ <;>
                  simp [List.countP_cons, List.countP_append, List.filter_cons,
                    List.filter_append, warmupTrace_sdAcq, warmupTrace_sdRel,
                    warmupTrace_camAcq, warmupTrace_camRel,
                    warmupTrace_frame_balance, warmupTrace_filter_rel, Event.isSdAcquire, Event.isSdRelease, Event.isCamAcquire, Event.isCamRelease, Event.isFrameAcquire, Event.isFrameRelease]
                intro a ha
                rcases warmupTrace_mem ha with ⟨b, rfl⟩ | rfl <;> exact ⟨rfl, rfl⟩
              | true =>
                rw [run_confident h0 hsd hcam hw hfb hlen hdet]
                refine ⟨?_, ?_, ?_, fun _ _ _ => ?_⟩ <;>
                  simp [List.countP_cons, List.countP_append, List.filter_cons,
                    List.filter_append, warmupTrace_sdAcq, warmupTrace_sdRel,
                    warmupTrace_camAcq, warmupTrace_camRel,
                    warmupTrace_frame_balance, warmupTrace_filter_rel,
                    notifyTrace_sdAcq, notifyTrace_sdRel, notifyTrace_camAcq,
                    notifyTrace_camRel, notifyTrace_frameAcq,
                    notifyTrace_frameRel, notifyTrace_filter_rel, Event.isSdAcquire, Event.isSdRelease, Event.isCamAcquire, Event.isCamRelease, Event.isFrameAcquire, Event.isFrameRelease]
                rw [warmupTrace_filter_nil _ (fun _ => rfl) rfl,
                  notifyTrace_filter_nil _ (fun _ => rfl) rfl (fun _ => rfl)]
                rfl

/-- C9 witness: a fully successful run releases the camera before the
storage, each exactly once. -/
theorem C9_resource_release_balance_and_order_witness :
    (handlePirTrigger 0 0 envAllOk).1.filter
        (fun e => Event.isCamRelease e || Event.isSdRelease e) =
      [Event.camDeinit, Event.sdUnmount] :=
  (C9_resource_release_balance_and_order 0 0 envAllOk).2.2.2 (by decide)
    (by decide) (by decide)

/-- C10: both shutdown operations are idempotent no-ops when the resource is
not acquired — after a failed mount or init, or after a previous shutdown —
leaving the state unchanged and releasing nothing; hence the unconditional
shutdown call of the mount-failure path releases nothing. -/
theorem C10_shutdown_noop_when_not_acquired :
    ∀ (camSt sdSt : Bool) (cell now : Int) (env : Env),
      CameraDriver.shutdown false = (false, []) ∧
      SdCardDriver.shutdown false = (false, []) ∧
      CameraDriver.shutdown (CameraDriver.shutdown camSt).1 = (false, []) ∧
      SdCardDriver.shutdown (SdCardDriver.shutdown sdSt).1 = (false, []) ∧
      (handlePirTrigger cell now { env with sdMountOk := false }).1.countP
          Event.isSdRelease = 0 ∧
      (handlePirTrigger cell now { env with sdMountOk := false }).1.countP
          Event.isCamRelease = 0 := by
  intro camSt sdSt cell now env
  refine ⟨rfl, rfl, ?_, ?_, ?_, ?_⟩
  · cases camSt <;> rfl
  · cases sdSt <;> rfl
  · by_cases h : isInCooldown cell now = true
    · rw [run_cooldown _ h]; rfl
    · rw [run_mountFail (bool_eq_false h) rfl]; rfl
  · by_cases h : isInCooldown cell now = true
    · rw [run_cooldown _ h]; rfl
    · rw [run_mountFail (bool_eq_false h) rfl]; rfl

end Sentinel
